import Mathlib

/-!
Shallow embedding of the LLM-Powered-Hypothesis-Tester core
(`src/hypotest/router.py` and `src/hypotest/hypotheses.py`).

Python strings are Lean `String`s (processed as `List Char` where Python
performs `.lower()` / substring / `.replace` operations, since those are
character-wise).  Python floats that carry cardinality fractions are
modelled as exact rationals `ℚ`; `round` is Python's round-half-to-even.
Heterogeneous `notes` dict values (strings or ints) are a small sum type.
-/

namespace Hypotest

/-- `needle` occurs at the start of `hay` (model of Python `str.startswith`,
used to build substring containment). -/
def beginsWith : List Char → List Char → Bool
  | _, [] => true
  | [], _ :: _ => false
  | h :: hs, n :: ns => h == n && beginsWith hs ns

/-- `needle` occurs somewhere in `hay` (model of Python `needle in hay`). -/
def hasSub : List Char → List Char → Bool
  | [], needle => needle.isEmpty
  | h :: t, needle => beginsWith (h :: t) needle || hasSub t needle

/-- Character-wise lower-casing of a Python string (`str.lower`; the fixed
keyword/vocabulary lists are ASCII so `Char.toLower` agrees). -/
def strLower (q : String) : List Char := q.data.map Char.toLower

/-- Python 3 `round` to the nearest integer, ties to even, on an exact
rational; `q.den` is positive so `Int.fdiv q.num q.den = ⌊q⌋`. -/
def pyRound (q : ℚ) : Int :=
  let d : Int := q.den
  let f : Int := Int.fdiv q.num d
  let r2 : Int := 2 * (q.num - f * d)
  if r2 < d then f
  else if d < r2 then f + 1
  else if f % 2 = 0 then f else f + 1

/-- A value stored in a routing decision's `notes` dict: the code puts either
strings (dtypes) or ints (group-count estimates) there. -/
inductive NoteVal where
  | str : String → NoteVal
  | int : Int → NoteVal
deriving DecidableEq, Repr

/-- Per-column schema metadata (`{dtype, unique_frac}`; `non_null` is unused
by the router and omitted). -/
structure ColumnMeta where
  dtype : String
  unique_frac : ℚ
deriving DecidableEq, Repr

/-- A schema: column-name → metadata mapping (keys unique) plus row count. -/
structure Schema where
  columns : List (String × ColumnMeta)
  rows : Nat
deriving DecidableEq, Repr

/-- `schema.get("columns", {}).get(col, {})`, as an optional lookup. -/
def _col_meta (schema : Schema) (col : String) : Option ColumnMeta :=
  (schema.columns.find? (fun p => p.1 == col)).map Prod.snd

/-- `_col_meta(schema, col).get("dtype", "unknown")`. -/
def _dtype (schema : Schema) (col : String) : String :=
  ((_col_meta schema col).map ColumnMeta.dtype).getD "unknown"

/-- `float(_col_meta(schema, col).get("unique_frac", 1.0))`. -/
def _unique_frac (schema : Schema) (col : String) : ℚ :=
  ((_col_meta schema col).map ColumnMeta.unique_frac).getD 1

def NUM_DTYPES : List String := ["int", "float"]

def CAT_DTYPES : List String := ["bool", "category", "string"]

def DATETIME_DTYPES : List String := ["datetime"]

def _is_numeric (schema : Schema) (col : String) : Bool :=
  NUM_DTYPES.contains (_dtype schema col)

def _is_datetime (schema : Schema) (col : String) : Bool :=
  DATETIME_DTYPES.contains (_dtype schema col)

/-- `_is_categorical`: membership in `CAT_DTYPES` first, then the
low-cardinality-string heuristic (`dt == "string" and unique_frac < 0.05`). -/
def _is_categorical (schema : Schema) (col : String) : Bool :=
  let dt := _dtype schema col
  if CAT_DTYPES.contains dt then true
  else dt == "string" && decide (_unique_frac schema col < mkRat 1 20)

/-- `max(1, int(round(uf * max(n_rows, 1))))`; the product
`uf * max(n_rows, 1)` is formed at the numerator/denominator level
(`mkRat (uf.num * m) uf.den` is exactly that rational). -/
def _group_count_hint (schema : Schema) (col : String) (n_rows : Nat) : Int :=
  let uf := _unique_frac schema col
  let m : Int := (max n_rows 1 : Nat)
  max 1 (pyRound (mkRat (uf.num * m) uf.den))

/-- `{suggested_test, reason, notes}` returned by `route_test`. -/
structure RoutingDecision where
  suggested_test : String
  reason : String
  notes : List (String × NoteVal)
deriving DecidableEq, Repr

/-- `route_test(relation, variables, schema)` from `router.py`. -/
def route_test (relation : String) (vars : List String)
    (schema : Schema) : RoutingDecision :=
  let n_rows := schema.rows
  match vars.filter (fun v => (_col_meta schema v).isSome) with
  | x :: y :: _ =>
    if _is_datetime schema x || _is_datetime schema y then
      ⟨"unsupported_datetime",
        "Datetime detected; convert to derived numeric/categorical first",
        [("x_dtype", NoteVal.str (_dtype schema x)),
         ("y_dtype", NoteVal.str (_dtype schema y))]⟩
    else
      let x_num := _is_numeric schema x
      let y_num := _is_numeric schema y
      let x_cat := _is_categorical schema x
      let y_cat := _is_categorical schema y
      if relation == "association" then
        if x_num && y_num then
          ⟨"spearman_correlation", "Both numeric; monotonic association requested",
            [("x_dtype", NoteVal.str (_dtype schema x)),
             ("y_dtype", NoteVal.str (_dtype schema y))]⟩
        else if (x_cat && y_num) || (x_num && y_cat) then
          let grp := if x_cat && y_num then x else y
          let metric := if x_cat && y_num then y else x
          let k := _group_count_hint schema grp n_rows
          ⟨if k > 2 then "kruskal_wallis" else "mann_whitney_or_welch_t",
            grp ++ " is categorical (k≈" ++ toString k ++ "); " ++ metric ++ " numeric",
            [("groups_est", NoteVal.int k)]⟩
        else if x_cat && y_cat then
          ⟨"chi_square", "Both categorical; association via contingency", []⟩
        else
          ⟨"unknown_association", "Unrecognized type combo for association",
            [("x", NoteVal.str (_dtype schema x)), ("y", NoteVal.str (_dtype schema y))]⟩
      else if relation == "group_mean_diff" then
        if x_cat && y_num then
          let k := _group_count_hint schema x n_rows
          ⟨if k > 2 then "anova" else "welch_t_or_mann_whitney",
            "group=" ++ x ++ " (k≈" ++ toString k ++ "), metric=" ++ y,
            [("groups_est", NoteVal.int k)]⟩
        else if y_cat && x_num then
          let k := _group_count_hint schema y n_rows
          ⟨if k > 2 then "anova" else "welch_t_or_mann_whitney",
            "group=" ++ y ++ " (k≈" ++ toString k ++ "), metric=" ++ x,
            [("groups_est", NoteVal.int k)]⟩
        else
          ⟨"unknown_group_mean_diff", "Need one categorical (group) and one numeric (metric)",
            [("x", NoteVal.str (_dtype schema x)), ("y", NoteVal.str (_dtype schema y))]⟩
      else if relation == "proportion_diff" then
        if x_cat && y_cat then
          ⟨"chi_square", "Proportion/rate language with two categorical variables", []⟩
        else
          ⟨"unknown_proportion_diff", "Proportion difference expects categorical variables",
            [("x", NoteVal.str (_dtype schema x)), ("y", NoteVal.str (_dtype schema y))]⟩
      else
        ⟨"unknown", "Unhandled relation: " ++ relation, []⟩
  | _ =>
    ⟨"none", "Need at least two valid variables in schema", []⟩

/-- `{suggestion, reason}` returned by `covariate_suggestion`. -/
structure CovariateSuggestion where
  suggestion : String
  reason : String
deriving DecidableEq, Repr

/-- `covariate_suggestion(relation, variables, schema)` from `router.py`. -/
def covariate_suggestion (relation : String) (vars : List String)
    (schema : Schema) : CovariateSuggestion :=
  match vars with
  | x :: y :: _ =>
    if relation == "association" && _is_numeric schema x && _is_numeric schema y then
      ⟨"ols", "Both numeric; model y ~ x + covariates"⟩
    else if (relation == "group_mean_diff" || relation == "proportion_diff")
        && _is_categorical schema y then
      ⟨"logistic", "Categorical outcome (" ++ y ++ "); consider logit with covariates"⟩
    else
      ⟨"none", "Bivariate test likely sufficient for MVP"⟩
  | _ => ⟨"none", "Need ≥2 variables"⟩

def ASSOCIATION_KEYWORDS : List String := ["correlat", "association", "related"]

def GROUP_DIFF_KEYWORDS : List String :=
  ["difference", "higher than", "lower than", "greater than", "less than", "compare", "diff"]

def PROPORTION_KEYWORDS : List String := ["proportion", "rate", "odds", "likelihood"]

/-- `any(k in ql for k in kws)` where `ql = q.lower()`. -/
def matchesAny (q : String) (kws : List String) : Bool :=
  kws.any (fun k => hasSub (strLower q) k.data)

/-- `guess_relation(q)` from `hypotheses.py`. -/
def guess_relation (q : String) : String :=
  if matchesAny q ASSOCIATION_KEYWORDS then "association"
  else if matchesAny q GROUP_DIFF_KEYWORDS then "group_mean_diff"
  else if matchesAny q PROPORTION_KEYWORDS then "proportion_diff"
  else "unknown"

def VARIABLE_CANDIDATES : List String :=
  ["length_of_stay", "procedure_count", "total_charges",
   "admission_day", "discharge_disposition", "weight_class",
   "winner", "method", "rounds", "sig_str_red", "sig_str_blue"]

/-- `c.replace("_", " ")` for the underscore-separated candidate names. -/
def underscoreToSpace (l : List Char) : List Char :=
  l.map (fun ch => if ch == '_' then ' ' else ch)

/-- `extract_variables_simple(q)` from `hypotheses.py`. -/
def extract_variables_simple (q : String) : List String :=
  let ql := strLower q
  VARIABLE_CANDIDATES.filter
    (fun c => hasSub ql (underscoreToSpace c.data) || hasSub ql c.data)

/-- `{H0, H1}` returned by `build_hypotheses`. -/
structure HypothesisPair where
  H0 : String
  H1 : String
deriving DecidableEq, Repr

def fallbackPair : HypothesisPair :=
  ⟨"Unable to form hypothesis", "Unable to form hypothesis"⟩

/-- `build_hypotheses(relation, vars)` from `hypotheses.py`. -/
def build_hypotheses (relation : String) (vars : List String) : HypothesisPair :=
  match vars with
  | x :: y :: _ =>
    if relation == "association" then
      ⟨"There is no monotonic association between " ++ x ++ " and " ++ y ++ " (ρ = 0).",
       "There is a monotonic association between " ++ x ++ " and " ++ y ++ " (ρ ≠ 0)."⟩
    else if relation == "group_mean_diff" then
      ⟨"The mean of " ++ y ++ " is equal across groups of " ++ x ++ ".",
       "The mean of " ++ y ++ " differs for at least one group of " ++ x ++ "."⟩
    else if relation == "proportion_diff" then
      ⟨"The proportion of " ++ y ++ " is equal across groups of " ++ x ++ ".",
       "The proportion of " ++ y ++ " differs for at least one group of " ++ x ++ "."⟩
    else fallbackPair
  | _ => fallbackPair

/-- `suggest_test(relation, vars)` from `hypotheses.py` (ignores `vars`). -/
def suggest_test (relation : String) (_vars : List String) : String :=
  if relation == "association" then "spearman_correlation"
  else if relation == "group_mean_diff" then "kruskal_wallis_or_anova"
  else if relation == "proportion_diff" then "chi_square"
  else "rule_based_unknown"

/-- The dict assembled by `parse_question` (`alpha = 0.05`). -/
structure ParseResult where
  question : String
  relation : String
  vars_found : List String
  hypotheses : HypothesisPair
  suggested_test : String
  alpha : ℚ
  sided : String
deriving DecidableEq, Repr

/-- `parse_question(question, schema)` from `hypotheses.py`. -/
def parse_question (question : String) (schema : Option Schema) : ParseResult :=
  let relation := guess_relation question
  let vars0 := extract_variables_simple question
  let vars_found :=
    match schema with
    | some s => vars0.filter (fun v => (s.columns.find? (fun p => p.1 == v)).isSome)
    | none => vars0
  { question := question
    relation := relation
    vars_found := vars_found
    hypotheses := build_hypotheses relation vars_found
    suggested_test := suggest_test relation vars_found
    alpha := mkRat 1 20
    sided := "two-sided" }

/-- The schema used by `tests/test_router.py`, as a concrete `Schema` value. -/
def TEST_SCHEMA : Schema :=
  ⟨[("length_of_stay", ⟨"int", mkRat 15 100⟩),
    ("procedure_count", ⟨"int", mkRat 5 100⟩),
    ("total_charges", ⟨"float", mkRat 9 10⟩),
    ("discharge_disposition", ⟨"category", mkRat 2 100⟩),
    ("admission_type", ⟨"category", mkRat 3 100⟩),
    ("winner", ⟨"category", mkRat 2 100⟩),
    ("weight_class", ⟨"category", mkRat 8 100⟩),
    ("encounter_date", ⟨"datetime", mkRat 9 10⟩)], 1000⟩

/-- A schema holding a single free-text column: dtype `string` with
`unique_frac = 0.5`, far above the `0.05` categorical threshold. -/
def STRING_COL_SCHEMA : Schema := ⟨[("notes_text", ⟨"string", mkRat 1 2⟩)], 100⟩

section HasSubLemmas

theorem beginsWith_nil (hay : List Char) : beginsWith hay [] = true := by
  cases hay <;> rfl

theorem beginsWith_append (n r : List Char) : beginsWith (n ++ r) n = true := by
  induction n with
  | nil => exact beginsWith_nil r
  | cons c cs ih => simp [beginsWith, ih]

theorem beginsWith_self (l : List Char) : beginsWith l l = true := by
  simpa using beginsWith_append l []

theorem hasSub_of_beginsWith (hay n : List Char) (h : beginsWith hay n = true) :
    hasSub hay n = true := by
  cases hay with
  | nil =>
    cases n with
    | nil => rfl
    | cons a t => simp [beginsWith] at h
  | cons c t => simp [hasSub, h]

theorem hasSub_append_right (a b n : List Char) (h : hasSub b n = true) :
    hasSub (a ++ b) n = true := by
  induction a with
  | nil => simpa using h
  | cons c cs ih => simp [hasSub, ih]

/-- A list occurs as a substring of any list that has it as a middle segment. -/
theorem hasSub_middle (a n b : List Char) : hasSub (a ++ (n ++ b)) n = true :=
  hasSub_append_right a (n ++ b) n (hasSub_of_beginsWith _ _ (beginsWith_append n b))

end HasSubLemmas

section TypePredicateLemmas

theorem dtype_of_categorical (s : Schema) (c : String)
    (h : _is_categorical s c = true) :
    _dtype s c = "bool" ∨ _dtype s c = "category" ∨ _dtype s c = "string" := by
  unfold _is_categorical at h
  by_cases hc : _dtype s c ∈ CAT_DTYPES
  · simpa [CAT_DTYPES] using hc
  · rw [if_neg (by simpa using hc)] at h
    simp only [Bool.and_eq_true, beq_iff_eq] at h
    exact Or.inr (Or.inr h.1)

theorem cat_not_numeric (s : Schema) (c : String)
    (h : _is_categorical s c = true) : _is_numeric s c = false := by
  rcases dtype_of_categorical s c h with h1 | h1 | h1 <;>
    · unfold _is_numeric; rw [h1]; decide

theorem num_not_categorical (s : Schema) (c : String)
    (h : _is_numeric s c = true) : _is_categorical s c = false := by
  cases hc : _is_categorical s c
  · rfl
  · rw [cat_not_numeric s c hc] at h
    exact absurd h (by simp)

theorem cat_not_datetime (s : Schema) (c : String)
    (h : _is_categorical s c = true) : _is_datetime s c = false := by
  rcases dtype_of_categorical s c h with h1 | h1 | h1 <;>
    · unfold _is_datetime; rw [h1]; decide

theorem dtype_of_numeric (s : Schema) (c : String)
    (h : _is_numeric s c = true) :
    _dtype s c = "int" ∨ _dtype s c = "float" := by
  unfold _is_numeric at h
  simpa [NUM_DTYPES] using h

theorem num_not_datetime (s : Schema) (c : String)
    (h : _is_numeric s c = true) : _is_datetime s c = false := by
  rcases dtype_of_numeric s c h with h1 | h1 <;>
    · unfold _is_datetime; rw [h1]; decide

end TypePredicateLemmas

/-- Claim C1: the claim states that a column of dtype `string` with
`unique_frac ≥ 0.05` is NOT categorical.  The code contradicts this:
`"string"` is a member of `CAT_DTYPES`, so `_is_categorical` returns `True`
for every string column, making the `unique_frac < 0.05` heuristic line
unreachable.  This theorem evaluates the code at the failing input: a
string column with `unique_frac = 0.5` is classified as categorical. -/
theorem is_categorical_high_uniqueness_string :
    _dtype STRING_COL_SCHEMA "notes_text" = "string" ∧
    ¬ (_unique_frac STRING_COL_SCHEMA "notes_text" < mkRat 1 20) ∧
    _is_categorical STRING_COL_SCHEMA "notes_text" = true := by decide

/-- Claim C10: the top-level `suggested_test` of `parse_question` depends
only on the relation classified from the question text: any two schemas
give the same value, and that value is one of the four fixed tags. -/
theorem parse_question_suggested_test_schema_independent
    (q : String) (s1 s2 : Option Schema) :
    (parse_question q s1).suggested_test = (parse_question q s2).suggested_test ∧
    ((parse_question q s1).suggested_test = "spearman_correlation" ∨
     (parse_question q s1).suggested_test = "kruskal_wallis_or_anova" ∨
     (parse_question q s1).suggested_test = "chi_square" ∨
     (parse_question q s1).suggested_test = "rule_based_unknown") := by
  have h : ∀ s, (parse_question q s).suggested_test =
      suggest_test (guess_relation q) [] := by
    intro s
    cases s <;> rfl
  constructor
  · rw [h s1, h s2]
  · rw [h s1]
    unfold suggest_test
    split_ifs <;> simp

/-- Claim C7: the relation classifier checks the three keyword groups in a
fixed priority order (association, then group-mean-difference, then
proportion/rate) and returns on the first match; in particular a question
matching both group 1 and group 2 resolves to `association`, and a
question matching no group resolves to `unknown`. -/
theorem guess_relation_priority (q : String) :
    (matchesAny q ASSOCIATION_KEYWORDS = true → guess_relation q = "association") ∧
    (matchesAny q ASSOCIATION_KEYWORDS = false →
      matchesAny q GROUP_DIFF_KEYWORDS = true → guess_relation q = "group_mean_diff") ∧
    (matchesAny q ASSOCIATION_KEYWORDS = false →
      matchesAny q GROUP_DIFF_KEYWORDS = false →
      matchesAny q PROPORTION_KEYWORDS = true → guess_relation q = "proportion_diff") ∧
    (matchesAny q ASSOCIATION_KEYWORDS = false →
      matchesAny q GROUP_DIFF_KEYWORDS = false →
      matchesAny q PROPORTION_KEYWORDS = false → guess_relation q = "unknown") := by
  refine ⟨fun h1 => ?_, fun h1 h2 => ?_, fun h1 h2 h3 => ?_, fun h1 h2 h3 => ?_⟩
  · simp [guess_relation, h1]
  · simp [guess_relation, h1, h2]
  · simp [guess_relation, h1, h2, h3]
  · simp [guess_relation, h1, h2, h3]

/-- Claim C7 witness: a question containing both `related` (group 1) and
`difference` (group 2) classifies as `association`; a question containing
no keyword classifies as `unknown`. -/
theorem guess_relation_priority_witness :
    (matchesAny "Is winner related to the difference in rounds?" ASSOCIATION_KEYWORDS = true ∧
     matchesAny "Is winner related to the difference in rounds?" GROUP_DIFF_KEYWORDS = true ∧
     guess_relation "Is winner related to the difference in rounds?" = "association") ∧
    (matchesAny "hello there" ASSOCIATION_KEYWORDS = false ∧
     matchesAny "hello there" GROUP_DIFF_KEYWORDS = false ∧
     matchesAny "hello there" PROPORTION_KEYWORDS = false ∧
     guess_relation "hello there" = "unknown") :=
  ⟨⟨by decide, by decide,
    (guess_relation_priority "Is winner related to the difference in rounds?").1 (by decide)⟩,
   ⟨by decide, by decide, by decide,
    (guess_relation_priority "hello there").2.2.2 (by decide) (by decide) (by decide)⟩⟩

/-- Claim C8: the hypothesis builder returns the fallback pair (both fields
`"Unable to form hypothesis"`) for every call with fewer than 2 variables
and for `relation = unknown` regardless of variable count; for the three
recognized relations with at least two variables it instantiates the
relation's H0/H1 template with `vars[0]` and `vars[1]`. -/
theorem build_hypotheses_spec (rel : String) (vs : List String) :
    (vs.length < 2 → build_hypotheses rel vs = fallbackPair) ∧
    (build_hypotheses "unknown" vs = fallbackPair) ∧
    (∀ x y rest, vs = x :: y :: rest →
      build_hypotheses "association" vs =
        ⟨"There is no monotonic association between " ++ x ++ " and " ++ y ++ " (ρ = 0).",
         "There is a monotonic association between " ++ x ++ " and " ++ y ++ " (ρ ≠ 0)."⟩ ∧
      build_hypotheses "group_mean_diff" vs =
        ⟨"The mean of " ++ y ++ " is equal across groups of " ++ x ++ ".",
         "The mean of " ++ y ++ " differs for at least one group of " ++ x ++ "."⟩ ∧
      build_hypotheses "proportion_diff" vs =
        ⟨"The proportion of " ++ y ++ " is equal across groups of " ++ x ++ ".",
         "The proportion of " ++ y ++ " differs for at least one group of " ++ x ++ "."⟩) := by
  refine ⟨?_, ?_, ?_⟩
  · rcases vs with _ | ⟨x, _ | ⟨y, rest⟩⟩
    · intro h; rfl
    · intro h; rfl
    · intro h; simp [List.length_cons] at h; omega
  · rcases vs with _ | ⟨x, _ | ⟨y, rest⟩⟩ <;> rfl
  · intro x y rest h
    subst h
    exact ⟨rfl, rfl, rfl⟩

/-- Claim C8 witness: fallback with one variable, fallback for `unknown`
with three variables, and the association template for two variables. -/
theorem build_hypotheses_spec_witness :
    build_hypotheses "association" ["winner"] = fallbackPair ∧
    build_hypotheses "unknown" ["winner", "rounds", "method"] = fallbackPair ∧
    build_hypotheses "association" ["winner", "rounds"] =
      ⟨"There is no monotonic association between winner and rounds (ρ = 0).",
       "There is a monotonic association between winner and rounds (ρ ≠ 0)."⟩ :=
  ⟨(build_hypotheses_spec "association" ["winner"]).1 (by decide),
   (build_hypotheses_spec "unknown" ["winner", "rounds", "method"]).2.1,
   ((build_hypotheses_spec "association" ["winner", "rounds"]).2.2
      "winner" "rounds" [] rfl).1⟩

/-- Claim C9: `covariate_suggestion` does not filter its variables by schema
membership; when the second variable is not a schema column its dtype
defaults to `"unknown"`, which is neither numeric nor categorical, so the
suggestion is `"none"` for every relation. -/
theorem covariate_suggestion_missing_outcome_none
    (rel x y : String) (rest : List String) (s : Schema)
    (hy : _col_meta s y = none) :
    (covariate_suggestion rel (x :: y :: rest) s).suggestion = "none" := by
  have hdt : _dtype s y = "unknown" := by simp [_dtype, hy]
  have hnum : _is_numeric s y = false := by
    unfold _is_numeric; rw [hdt]; decide
  have hcat : _is_categorical s y = false := by
    unfold _is_categorical; rw [hdt]
    simp [CAT_DTYPES, _unique_frac, hy]
  simp [covariate_suggestion, hnum, hcat]

/-- Claim C9 witness: `zzz` is not a column of the test schema, so the
suggestion for `group_mean_diff` on `["winner", "zzz"]` is `"none"`. -/
theorem covariate_suggestion_missing_outcome_none_witness :
    _col_meta TEST_SCHEMA "zzz" = none ∧
    (covariate_suggestion "group_mean_diff" ["winner", "zzz"] TEST_SCHEMA).suggestion
      = "none" :=
  ⟨by decide,
   covariate_suggestion_missing_outcome_none "group_mean_diff" "winner" "zzz" []
     TEST_SCHEMA (by decide)⟩

/-- Claim C2: whenever at least two of the listed variables are present in
the schema and either of the first two schema-present variables has dtype
`datetime`, `route_test` returns `unsupported_datetime` with both
variables' dtypes in `notes`, regardless of the relation tag. -/
theorem route_test_datetime_guard (rel : String) (vs : List String) (s : Schema)
    (x y : String) (rest : List String)
    (hv : vs.filter (fun v => (_col_meta s v).isSome) = x :: y :: rest)
    (hdt : _dtype s x = "datetime" ∨ _dtype s y = "datetime") :
    (route_test rel vs s).suggested_test = "unsupported_datetime" ∧
    (route_test rel vs s).notes =
      [("x_dtype", NoteVal.str (_dtype s x)),
       ("y_dtype", NoteVal.str (_dtype s y))] := by
  have hb : (_is_datetime s x || _is_datetime s y) = true := by
    rcases hdt with h | h
    · have hx : _is_datetime s x = true := by unfold _is_datetime; rw [h]; decide
      rw [hx]; rfl
    · have hy : _is_datetime s y = true := by unfold _is_datetime; rw [h]; decide
      rw [hy]; simp
  simp only [route_test, hv, hb, if_true]
  exact ⟨trivial, trivial⟩

/-- Claim C2 witness: `encounter_date` is datetime in the test schema, so
association routing on `(encounter_date, total_charges)` reports
`unsupported_datetime` with the two dtypes in the notes. -/
theorem route_test_datetime_guard_witness :
    (route_test "association" ["encounter_date", "total_charges"] TEST_SCHEMA).suggested_test
      = "unsupported_datetime" ∧
    (route_test "association" ["encounter_date", "total_charges"] TEST_SCHEMA).notes
      = [("x_dtype", NoteVal.str "datetime"), ("y_dtype", NoteVal.str "float")] :=
  route_test_datetime_guard "association" ["encounter_date", "total_charges"]
    TEST_SCHEMA "encounter_date" "total_charges" [] (by decide) (Or.inl (by decide))

/-- Claim C6: `covariate_suggestion` yields `ols` exactly for `association`
with the first two variables numeric, `logistic` exactly for
`group_mean_diff`/`proportion_diff` with the second variable categorical,
and `none` in every other case (the suggestion is always one of these
three tags, and fewer than 2 variables never reach `ols`/`logistic`). -/
theorem covariate_suggestion_spec (rel : String) (vs : List String) (s : Schema) :
    ((covariate_suggestion rel vs s).suggestion = "ols" ↔
      (∃ x y rest, vs = x :: y :: rest ∧ rel = "association" ∧
        _is_numeric s x = true ∧ _is_numeric s y = true)) ∧
    ((covariate_suggestion rel vs s).suggestion = "logistic" ↔
      (∃ x y rest, vs = x :: y :: rest ∧
        (rel = "group_mean_diff" ∨ rel = "proportion_diff") ∧
        _is_categorical s y = true)) ∧
    ((covariate_suggestion rel vs s).suggestion = "ols" ∨
     (covariate_suggestion rel vs s).suggestion = "logistic" ∨
     (covariate_suggestion rel vs s).suggestion = "none") := by
  rcases vs with _ | ⟨x, _ | ⟨y, rest⟩⟩
  · simp [covariate_suggestion]
  · simp [covariate_suggestion]
  · by_cases h1 : (rel == "association" && _is_numeric s x && _is_numeric s y) = true
    · have h1' := h1
      simp only [Bool.and_eq_true, beq_iff_eq] at h1'
      obtain ⟨⟨hr, hx⟩, hy⟩ := h1'
      have hres : covariate_suggestion rel (x :: y :: rest) s =
          ⟨"ols", "Both numeric; model y ~ x + covariates"⟩ := by
        simp [covariate_suggestion, h1]
      refine ⟨?_, ?_, ?_⟩
      · simp only [hres]
        exact ⟨fun _ => ⟨x, y, rest, rfl, hr, hx, hy⟩, fun _ => trivial⟩
      · simp only [hres]
        constructor
        · intro h; exact absurd h (by decide)
        · rintro ⟨x', y', rest', heq, hrel, _⟩
          rcases hrel with h | h <;> · rw [hr] at h; exact absurd h (by decide)
      · simp [hres]
    · by_cases h2 : ((rel == "group_mean_diff" || rel == "proportion_diff")
          && _is_categorical s y) = true
      · have h2' := h2
        simp only [Bool.and_eq_true, Bool.or_eq_true, beq_iff_eq] at h2'
        obtain ⟨hrel, hcat⟩ := h2'
        have hres : covariate_suggestion rel (x :: y :: rest) s =
            ⟨"logistic", "Categorical outcome (" ++ y ++ "); consider logit with covariates"⟩ := by
          simp only [covariate_suggestion]
          rw [if_neg (by simpa using h1), if_pos h2]
        refine ⟨?_, ?_, ?_⟩
        · simp only [hres]
          constructor
          · intro h; exact absurd h (by decide)
          · rintro ⟨x', y', rest', heq, hrel', hx', hy'⟩
            injection heq with e1 e2
            injection e2 with e2 _
            subst e1; subst e2
            exact absurd h1 (by simp [hrel', hx', hy'])
        · simp only [hres]
          exact ⟨fun _ => ⟨x, y, rest, rfl, hrel, hcat⟩, fun _ => trivial⟩
        · simp [hres]
      · have hres : covariate_suggestion rel (x :: y :: rest) s =
            ⟨"none", "Bivariate test likely sufficient for MVP"⟩ := by
          simp only [covariate_suggestion]
          rw [if_neg (by simpa using h1), if_neg (by simpa using h2)]
        refine ⟨?_, ?_, ?_⟩
        · simp only [hres]
          constructor
          · intro h; exact absurd h (by decide)
          · rintro ⟨x', y', rest', heq, hrel', hx', hy'⟩
            injection heq with e1 e2
            injection e2 with e2 _
            subst e1; subst e2
            exact absurd h1 (by simp [hrel', hx', hy'])
        · simp only [hres]
          constructor
          · intro h; exact absurd h (by decide)
          · rintro ⟨x', y', rest', heq, hrel', hcat'⟩
            injection heq with e1 e2
            injection e2 with e2 _
            subst e1; subst e2
            refine absurd h2 ?_
            simp only [Bool.and_eq_true, Bool.or_eq_true, beq_iff_eq]
            exact fun hk => hk ⟨hrel', hcat'⟩
        · simp [hres]

/-- A schema with a datetime column `a` and an int column `b`. -/
def DATETIME_FIRST_SCHEMA : Schema :=
  ⟨[("a", ⟨"datetime", mkRat 9 10⟩), ("b", ⟨"int", mkRat 1 2⟩)], 100⟩

/-- Claim C3 counterexample: for the unhandled relation `weird_relation`
and two schema-present variables, the claim predicts `unknown`; but when
the first variable is datetime the code returns `unsupported_datetime`
instead (the datetime guard runs before the relation dispatch). -/
theorem route_test_unknown_relation_cex :
    (_col_meta DATETIME_FIRST_SCHEMA "a").isSome = true ∧
    (_col_meta DATETIME_FIRST_SCHEMA "b").isSome = true ∧
    (route_test "weird_relation" ["a", "b"] DATETIME_FIRST_SCHEMA).suggested_test
      = "unsupported_datetime" ∧
    (route_test "weird_relation" ["a", "b"] DATETIME_FIRST_SCHEMA).suggested_test
      ≠ "unknown" := by decide

/-- Claim C3 (amended): for every relation tag not among `association`,
`group_mean_diff`, `proportion_diff`, and any two schema-present variables
of which neither of the first two is datetime, `route_test` returns
`unknown` with reason `"Unhandled relation: <relation>"`. -/
theorem route_test_unhandled_relation (rel : String) (vs : List String) (s : Schema)
    (x y : String) (rest : List String)
    (hv : vs.filter (fun v => (_col_meta s v).isSome) = x :: y :: rest)
    (hx : _dtype s x ≠ "datetime") (hy : _dtype s y ≠ "datetime")
    (hr1 : rel ≠ "association") (hr2 : rel ≠ "group_mean_diff")
    (hr3 : rel ≠ "proportion_diff") :
    route_test rel vs s = ⟨"unknown", "Unhandled relation: " ++ rel, []⟩ := by
  have hdx : _is_datetime s x = false := by
    unfold _is_datetime
    simp [DATETIME_DTYPES, hx]
  have hdy : _is_datetime s y = false := by
    unfold _is_datetime
    simp [DATETIME_DTYPES, hy]
  simp [route_test, hv, hdx, hdy, hr1, hr2, hr3]

/-- Claim C3 amended-theorem witness: the test suite's unknown-relation
scenario, with two non-datetime columns of the test schema. -/
theorem route_test_unhandled_relation_witness :
    route_test "weird_relation" ["length_of_stay", "procedure_count"] TEST_SCHEMA
      = ⟨"unknown", "Unhandled relation: weird_relation", []⟩ :=
  route_test_unhandled_relation "weird_relation"
    ["length_of_stay", "procedure_count"] TEST_SCHEMA
    "length_of_stay" "procedure_count" [] (by decide)
    (by decide) (by decide) (by decide) (by decide) (by decide)

/-- Claim C5: for association routing with one categorical and one numeric
variable (in either position), and for group_mean_diff routing with a
categorical group and numeric metric (group in either position), a
group-cardinality estimate of exactly 2 on the group column selects the
two-sample test (`mann_whitney_or_welch_t` / `welch_t_or_mann_whitney`)
and an estimate of exactly 3 selects the multi-group test
(`kruskal_wallis` / `anova`).  The first conjunct covers the
categorical-first ordering (group = x), the second the numeric-first
ordering (group = y). -/
theorem route_test_group_cardinality_boundary (vs : List String) (s : Schema)
    (x y : String) (rest : List String)
    (hv : vs.filter (fun v => (_col_meta s v).isSome) = x :: y :: rest) :
    (_is_categorical s x = true → _is_numeric s y = true →
      (_group_count_hint s x s.rows = 2 →
        (route_test "association" vs s).suggested_test = "mann_whitney_or_welch_t" ∧
        (route_test "group_mean_diff" vs s).suggested_test = "welch_t_or_mann_whitney") ∧
      (_group_count_hint s x s.rows = 3 →
        (route_test "association" vs s).suggested_test = "kruskal_wallis" ∧
        (route_test "group_mean_diff" vs s).suggested_test = "anova")) ∧
    (_is_numeric s x = true → _is_categorical s y = true →
      (_group_count_hint s y s.rows = 2 →
        (route_test "association" vs s).suggested_test = "mann_whitney_or_welch_t" ∧
        (route_test "group_mean_diff" vs s).suggested_test = "welch_t_or_mann_whitney") ∧
      (_group_count_hint s y s.rows = 3 →
        (route_test "association" vs s).suggested_test = "kruskal_wallis" ∧
        (route_test "group_mean_diff" vs s).suggested_test = "anova")) := by
  constructor
  · intro hxc hyn
    have hxn : _is_numeric s x = false := cat_not_numeric s x hxc
    have hxd : _is_datetime s x = false := cat_not_datetime s x hxc
    have hyd : _is_datetime s y = false := num_not_datetime s y hyn
    constructor
    · intro hk
      constructor
      · simp [route_test, hv, hxd, hyd, hxc, hyn, hxn, hk]
      · simp [route_test, hv, hxd, hyd, hxc, hyn, hxn, hk]
    · intro hk
      constructor
      · simp [route_test, hv, hxd, hyd, hxc, hyn, hxn, hk]
      · simp [route_test, hv, hxd, hyd, hxc, hyn, hxn, hk]
  · intro hxn hyc
    have hyn : _is_numeric s y = false := cat_not_numeric s y hyc
    have hxc : _is_categorical s x = false := num_not_categorical s x hxn
    have hxd : _is_datetime s x = false := num_not_datetime s x hxn
    have hyd : _is_datetime s y = false := cat_not_datetime s y hyc
    constructor
    · intro hk
      constructor
      · simp [route_test, hv, hxd, hyd, hxc, hyn, hxn, hyc, hk]
      · simp [route_test, hv, hxd, hyd, hxc, hyn, hxn, hyc, hk]
    · intro hk
      constructor
      · simp [route_test, hv, hxd, hyd, hxc, hyn, hxn, hyc, hk]
      · simp [route_test, hv, hxd, hyd, hxc, hyn, hxn, hyc, hk]

/-- A schema whose group column estimates exactly 2 groups:
`0.02 × 100 = 2`. -/
def TWO_GROUP_SCHEMA : Schema :=
  ⟨[("grp", ⟨"category", mkRat 2 100⟩), ("metric", ⟨"float", mkRat 1 2⟩)], 100⟩

/-- A schema whose group column estimates exactly 3 groups:
`0.03 × 100 = 3`. -/
def THREE_GROUP_SCHEMA : Schema :=
  ⟨[("grp", ⟨"category", mkRat 3 100⟩), ("metric", ⟨"float", mkRat 1 2⟩)], 100⟩

/-- Claim C5 witness: with k = 2 the two-sample tests are chosen and with
k = 3 the multi-group tests are chosen, in both routing relations and for
both variable orderings (categorical group first and numeric metric
first). -/
theorem route_test_group_cardinality_boundary_witness :
    _group_count_hint TWO_GROUP_SCHEMA "grp" TWO_GROUP_SCHEMA.rows = 2 ∧
    _group_count_hint THREE_GROUP_SCHEMA "grp" THREE_GROUP_SCHEMA.rows = 3 ∧
    ((route_test "association" ["grp", "metric"] TWO_GROUP_SCHEMA).suggested_test
       = "mann_whitney_or_welch_t" ∧
     (route_test "group_mean_diff" ["grp", "metric"] TWO_GROUP_SCHEMA).suggested_test
       = "welch_t_or_mann_whitney") ∧
    ((route_test "association" ["metric", "grp"] TWO_GROUP_SCHEMA).suggested_test
       = "mann_whitney_or_welch_t" ∧
     (route_test "group_mean_diff" ["metric", "grp"] TWO_GROUP_SCHEMA).suggested_test
       = "welch_t_or_mann_whitney") ∧
    ((route_test "association" ["grp", "metric"] THREE_GROUP_SCHEMA).suggested_test
       = "kruskal_wallis" ∧
     (route_test "group_mean_diff" ["grp", "metric"] THREE_GROUP_SCHEMA).suggested_test
       = "anova") ∧
    ((route_test "association" ["metric", "grp"] THREE_GROUP_SCHEMA).suggested_test
       = "kruskal_wallis" ∧
     (route_test "group_mean_diff" ["metric", "grp"] THREE_GROUP_SCHEMA).suggested_test
       = "anova") :=
  ⟨by decide, by decide,
   ((route_test_group_cardinality_boundary ["grp", "metric"] TWO_GROUP_SCHEMA
      "grp" "metric" [] (by decide)).1 (by decide) (by decide)).1 (by decide),
   ((route_test_group_cardinality_boundary ["metric", "grp"] TWO_GROUP_SCHEMA
      "metric" "grp" [] (by decide)).2 (by decide) (by decide)).1 (by decide),
   ((route_test_group_cardinality_boundary ["grp", "metric"] THREE_GROUP_SCHEMA
      "grp" "metric" [] (by decide)).1 (by decide) (by decide)).2 (by decide),
   ((route_test_group_cardinality_boundary ["metric", "grp"] THREE_GROUP_SCHEMA
      "metric" "grp" [] (by decide)).2 (by decide) (by decide)).2 (by decide)⟩

/-- A schema with two numeric columns whose names (`v1`, `v2`) share no
character sequence with the fixed numeric-association reason text. -/
def NUMERIC_PAIR_SCHEMA : Schema :=
  ⟨[("v1", ⟨"int", mkRat 15 100⟩), ("v2", ⟨"float", mkRat 9 10⟩)], 1000⟩

/-- Claim C4 counterexample: a call that reaches the association branch
with two numeric variables returns the fixed reason
`"Both numeric; monotonic association requested"`, which names neither of
the two variables used for routing. -/
theorem route_test_reason_cex :
    (route_test "association" ["v1", "v2"] NUMERIC_PAIR_SCHEMA).suggested_test
      = "spearman_correlation" ∧
    hasSub (route_test "association" ["v1", "v2"] NUMERIC_PAIR_SCHEMA).reason.data
      "v1".data = false ∧
    hasSub (route_test "association" ["v1", "v2"] NUMERIC_PAIR_SCHEMA).reason.data
      "v2".data = false := by decide

/-- Claim C4 (amended): only in the branches where the group-cardinality
estimate determines the test — association with one categorical and one
numeric variable, and group_mean_diff with a categorical group and numeric
metric, the group in either position — does the reason string name both
routing variables together with the estimated group count k; the other
branches use fixed reason texts that do not mention the variables.  The
first conjunct covers the categorical-first ordering (group = x), the
second the numeric-first ordering (group = y). -/
theorem route_test_group_branch_reason (vs : List String) (s : Schema)
    (x y : String) (rest : List String)
    (hv : vs.filter (fun v => (_col_meta s v).isSome) = x :: y :: rest) :
    (_is_categorical s x = true → _is_numeric s y = true →
      (hasSub (route_test "association" vs s).reason.data x.data = true ∧
       hasSub (route_test "association" vs s).reason.data y.data = true ∧
       hasSub (route_test "association" vs s).reason.data
         (toString (_group_count_hint s x s.rows)).data = true) ∧
      (hasSub (route_test "group_mean_diff" vs s).reason.data x.data = true ∧
       hasSub (route_test "group_mean_diff" vs s).reason.data y.data = true ∧
       hasSub (route_test "group_mean_diff" vs s).reason.data
         (toString (_group_count_hint s x s.rows)).data = true)) ∧
    (_is_numeric s x = true → _is_categorical s y = true →
      (hasSub (route_test "association" vs s).reason.data x.data = true ∧
       hasSub (route_test "association" vs s).reason.data y.data = true ∧
       hasSub (route_test "association" vs s).reason.data
         (toString (_group_count_hint s y s.rows)).data = true) ∧
      (hasSub (route_test "group_mean_diff" vs s).reason.data x.data = true ∧
       hasSub (route_test "group_mean_diff" vs s).reason.data y.data = true ∧
       hasSub (route_test "group_mean_diff" vs s).reason.data
         (toString (_group_count_hint s y s.rows)).data = true)) := by
  constructor
  · intro hxc hyn
    have hxn : _is_numeric s x = false := cat_not_numeric s x hxc
    have hxd : _is_datetime s x = false := cat_not_datetime s x hxc
    have hyd : _is_datetime s y = false := num_not_datetime s y hyn
    have hra : (route_test "association" vs s).reason =
        x ++ " is categorical (k≈" ++ toString (_group_count_hint s x s.rows)
          ++ "); " ++ y ++ " numeric" := by
      simp [route_test, hv, hxd, hyd, hxc, hyn, hxn]
    have hrg : (route_test "group_mean_diff" vs s).reason =
        "group=" ++ x ++ " (k≈" ++ toString (_group_count_hint s x s.rows)
          ++ "), metric=" ++ y := by
      simp [route_test, hv, hxd, hyd, hxc, hyn, hxn]
    refine ⟨⟨?_, ?_, ?_⟩, ⟨?_, ?_, ?_⟩⟩ <;>
        simp only [hra, hrg, String.data_append, List.append_assoc]
    · exact hasSub_of_beginsWith _ _ (beginsWith_append _ _)
    · apply hasSub_append_right
      apply hasSub_append_right
      apply hasSub_append_right
      apply hasSub_append_right
      exact hasSub_of_beginsWith _ _ (beginsWith_append _ _)
    · apply hasSub_append_right
      apply hasSub_append_right
      exact hasSub_of_beginsWith _ _ (beginsWith_append _ _)
    · apply hasSub_append_right
      exact hasSub_of_beginsWith _ _ (beginsWith_append _ _)
    · apply hasSub_append_right
      apply hasSub_append_right
      apply hasSub_append_right
      apply hasSub_append_right
      apply hasSub_append_right
      exact hasSub_of_beginsWith _ _ (beginsWith_self _)
    · apply hasSub_append_right
      apply hasSub_append_right
      apply hasSub_append_right
      exact hasSub_of_beginsWith _ _ (beginsWith_append _ _)
  · intro hxn hyc
    have hyn : _is_numeric s y = false := cat_not_numeric s y hyc
    have hxc : _is_categorical s x = false := num_not_categorical s x hxn
    have hxd : _is_datetime s x = false := num_not_datetime s x hxn
    have hyd : _is_datetime s y = false := cat_not_datetime s y hyc
    have hra : (route_test "association" vs s).reason =
        y ++ " is categorical (k≈" ++ toString (_group_count_hint s y s.rows)
          ++ "); " ++ x ++ " numeric" := by
      simp [route_test, hv, hxd, hyd, hxc, hyn, hxn, hyc]
    have hrg : (route_test "group_mean_diff" vs s).reason =
        "group=" ++ y ++ " (k≈" ++ toString (_group_count_hint s y s.rows)
          ++ "), metric=" ++ x := by
      simp [route_test, hv, hxd, hyd, hxc, hyn, hxn, hyc]
    refine ⟨⟨?_, ?_, ?_⟩, ⟨?_, ?_, ?_⟩⟩ <;>
        simp only [hra, hrg, String.data_append, List.append_assoc]
    · apply hasSub_append_right
      apply hasSub_append_right
      apply hasSub_append_right
      apply hasSub_append_right
      exact hasSub_of_beginsWith _ _ (beginsWith_append _ _)
    · exact hasSub_of_beginsWith _ _ (beginsWith_append _ _)
    · apply hasSub_append_right
      apply hasSub_append_right
      exact hasSub_of_beginsWith _ _ (beginsWith_append _ _)
    · apply hasSub_append_right
      apply hasSub_append_right
      apply hasSub_append_right
      apply hasSub_append_right
      apply hasSub_append_right
      exact hasSub_of_beginsWith _ _ (beginsWith_self _)
    · apply hasSub_append_right
      exact hasSub_of_beginsWith _ _ (beginsWith_append _ _)
    · apply hasSub_append_right
      apply hasSub_append_right
      apply hasSub_append_right
      exact hasSub_of_beginsWith _ _ (beginsWith_append _ _)

/-- Claim C4 amended-theorem witness: in the test schema, routing on
`(weight_class, total_charges)` and on the reversed ordering
`(total_charges, weight_class)` produces reasons naming the variables and
the group-count estimate, in both relations. -/
theorem route_test_group_branch_reason_witness :
    hasSub (route_test "association" ["weight_class", "total_charges"] TEST_SCHEMA).reason.data
      "weight_class".data = true ∧
    hasSub (route_test "group_mean_diff" ["weight_class", "total_charges"] TEST_SCHEMA).reason.data
      (toString (_group_count_hint TEST_SCHEMA "weight_class" TEST_SCHEMA.rows)).data = true ∧
    hasSub (route_test "association" ["total_charges", "weight_class"] TEST_SCHEMA).reason.data
      "total_charges".data = true ∧
    hasSub (route_test "group_mean_diff" ["total_charges", "weight_class"] TEST_SCHEMA).reason.data
      (toString (_group_count_hint TEST_SCHEMA "weight_class" TEST_SCHEMA.rows)).data = true :=
  ⟨((route_test_group_branch_reason ["weight_class", "total_charges"] TEST_SCHEMA
      "weight_class" "total_charges" [] (by decide)).1 (by decide) (by decide)).1.1,
   ((route_test_group_branch_reason ["weight_class", "total_charges"] TEST_SCHEMA
      "weight_class" "total_charges" [] (by decide)).1 (by decide) (by decide)).2.2.2,
   ((route_test_group_branch_reason ["total_charges", "weight_class"] TEST_SCHEMA
      "total_charges" "weight_class" [] (by decide)).2 (by decide) (by decide)).1.1,
   ((route_test_group_branch_reason ["total_charges", "weight_class"] TEST_SCHEMA
      "total_charges" "weight_class" [] (by decide)).2 (by decide) (by decide)).2.2.2⟩

end Hypotest
